import Mathlib

/-!
Verification development for the CocoMUD engine core (src/game.py):
the hierarchical logging-channel registry, the layered settings store,
the session wiring performed by GameEngine.open and GameEngine.load,
and the locale-aware help resolution of GameEngine.open_help.

The Python code is shallowly embedded: mutable objects become explicit
state records, object identity becomes numeric ids allocated from a
counter, exceptions become Except values paired with the state as it is
at the moment the exception escapes.
-/

/-- Numeric severity of the Python logging module: logging.DEBUG. -/
def pyDEBUG : Nat := 10

/-- Numeric severity of the Python logging module: logging.INFO. -/
def pyINFO : Nat := 20

/-- Format string installed on every file handler by create_logger
(game.py lines 116-117). -/
def customFmt : String := "%(hour)02d:%(minute)02d [%(levelname)s] %(message)s"

/-- A logging handler attached to a channel.  stream embeds
logging.StreamHandler (console sink, no formatter installed by the code);
file embeds logging.FileHandler with its filename, encoding, severity
threshold and the formatter installed on it. -/
inductive Handler where
  | stream (level : Nat)
  | file (filename : String) (encoding : String) (level : Nat) (fmt : String)
  deriving DecidableEq, Repr

/-- A logging channel (a Python logging.Logger as configured by
create_logger): its dotted name, its own minimum severity, and its
handlers in attachment order. -/
structure Logger where
  name : String
  level : Nat
  handlers : List Handler
  deriving DecidableEq, Repr

/-- Registry of channels owned by the engine (the self.loggers dict),
modelled as an association list; insertion prepends and lookup takes the
first match, matching dict lookup semantics. -/
def LoggerMap := List (String × Logger)

/-- Resolved physical channel name (game.py lines 104-109): the empty
name denotes the root channel cocomud, any other name is namespaced
under it. -/
def physName (name : String) : String :=
  if name = "" then "cocomud" else "cocomud." ++ name

/-- Resolved log file for a channel (game.py lines 104-108): the root
channel always logs to logs/main.log; a child logs to logs/<name>.log
unless a filename override is supplied. -/
def physFile (name : String) (filename : Option String) : String :=
  if name = "" then "logs/main.log"
  else filename.getD ("logs/" ++ name ++ ".log")

/-- Embedding of GameEngine.create_logger (game.py lines 96-131).
Returns the updated registry together with the channel handed back to
the caller.  If the resolved physical name is already registered the
cached channel is returned and nothing is attached; otherwise the
channel is built: own severity debug, a console sink at severity info
only for the root channel, and always a UTF-8 file sink at severity
debug carrying the custom formatter. -/
def create_logger (loggers : List (String × Logger)) (name : String)
    (filename : Option String) : List (String × Logger) × Logger :=
  let fname := physFile name filename
  let pname := physName name
  match loggers.lookup pname with
  | some lg => (loggers, lg)
  | none =>
    let base : Logger := { name := pname, level := pyDEBUG, handlers := [] }
    let withConsole :=
      if pname = "cocomud" then
        { base with handlers := base.handlers ++ [Handler.stream pyINFO] }
      else base
    let lg :=
      { withConsole with
          handlers := withConsole.handlers ++
            [Handler.file fname "utf-8" pyDEBUG customFmt] }
    ((pname, lg) :: loggers, lg)

/-- Embedding of the Level enumeration (game.py lines 41-57). -/
inductive Level where
  | engine
  | world
  | character
  | category
  deriving DecidableEq, Repr

/-- Integer value carried by each Level tag (game.py lines 54-57). -/
def Level.value : Level → Nat
  | Level.engine => 1
  | Level.world => 2
  | Level.character => 3
  | Level.category => 4

/-- Error raised by a settings lookup on a key that no layer defines and
that has no declared default (a KeyError-class error). -/
inductive SettingsError where
  | keyError
  deriving DecidableEq, Repr

/-- Modelled from the spec: class Settings lives in config.py, which is
not among the sources; only its use sites in game.py are.  Per spec
section 4.2 the store holds four override layers keyed by Level plus
built-in defaults; load() reads configuration from persistent storage
into the four layers, and the persistent storage is the stored field. -/
structure Settings where
  stored : Level → String → Option String
  layers : Level → String → Option String
  defaults : String → Option String

/-- Modelled from the spec: Settings.load() reads configuration from
persistent storage into the four override layers (spec section 4.2). -/
def Settings.load (s : Settings) : Settings :=
  { s with layers := s.stored }

/-- Modelled from the spec: Settings.get resolves a key by level
precedence category > character > world > engine (most specific wins),
falls back to the declared default, and fails with a KeyError-class
error when there is none (spec section 4.2).  This also embeds the
indexing self.settings[key] used by GameEngine.load. -/
def Settings.get (s : Settings) (key : String) : Except SettingsError String :=
  match s.layers Level.category key with
  | some v => Except.ok v
  | none =>
    match s.layers Level.character key with
    | some v => Except.ok v
    | none =>
      match s.layers Level.world key with
      | some v => Except.ok v
      | none =>
        match s.layers Level.engine key with
        | some v => Except.ok v
        | none =>
          match s.defaults key with
          | some v => Except.ok v
          | none => Except.error SettingsError.keyError

/-- A world as wired by the engine: optional client and sharp engine
handles (numeric ids into the engine heaps) plus the engine
back-reference set by GameEngine.load. -/
structure World where
  client : Option Nat
  sharp_engine : Option Nat
  engine : Bool
  deriving DecidableEq, Repr

/-- The GUIClient handle constructed by GameEngine.open (game.py line
154): constructor arguments host, port and world, plus the sharp_engine
attribute assigned during wiring. -/
structure GUIClient where
  host : String
  port : Nat
  worldId : String
  sharp_engine : Option Nat
  deriving DecidableEq, Repr

/-- The SharpScript handle constructed by GameEngine.open (game.py line
155), bound to its client and world. -/
structure SharpScript where
  clientId : Nat
  worldId : String
  deriving DecidableEq, Repr

/-- Failure mode of GameEngine.open: the GUIClient constructor or the
SharpScript constructor raised. -/
inductive OpenError where
  | clientFailure
  | sharpFailure
  deriving DecidableEq, Repr

/-- The state of a GameEngine instance (game.py lines 84-94), together
with heaps for the GUIClient and SharpScript objects it allocates, so
that Python object identity is observable as id equality.  nextId is the
allocation counter; log records the messages emitted on the root channel
as (severity, text) pairs; TTS_on and TTS_outside are the attributes
assigned dynamically by load and are unset before it runs. -/
structure EngineState where
  loggers : List (String × Logger)
  log : List (Nat × String)
  settings : Settings
  worlds : List (String × World)
  default_world : Option String
  level : Level
  TTS_on : Option String
  TTS_outside : Option String
  nextId : Nat
  clients : List (Nat × GUIClient)
  sharps : List (Nat × SharpScript)

/-- Mutation of the object stored under key k (a Python attribute
assignment reached through a reference held in a map). -/
def updateEntry {κ α : Type} [BEq κ] (xs : List (κ × α)) (k : κ)
    (f : α → α) : List (κ × α) :=
  xs.map (fun p => bif p.1 == k then (p.1, f p.2) else p)

/-- Embedding of GameEngine.open (game.py lines 144-159); named
openWorld because open is a Lean keyword.  The world argument is passed
by reference (its key in the world map).  clientOk and sharpOk say
whether the GUIClient and the SharpScript constructors succeed; false
models the constructor raising.  The returned state is the state at the
moment open returns or the exception escapes its frame; on success the
second component carries the id of the client handed back to the
caller. -/
def GameEngine.openWorld (st : EngineState) (host : String) (port : Nat)
    (wid : String) (clientOk sharpOk : Bool) :
    EngineState × Except OpenError Nat :=
  let st1 := { st with log := st.log ++
    [(pyINFO, "Creating a client for " ++ host ++ ":" ++ toString port)] }
  if clientOk then
    let cid := st1.nextId
    let client : GUIClient :=
      { host := host, port := port, worldId := wid, sharp_engine := none }
    let st2 := { st1 with
      nextId := cid + 1,
      clients := (cid, client) :: st1.clients }
    if sharpOk then
      let sid := st2.nextId
      let sharp : SharpScript := { clientId := cid, worldId := wid }
      let st3 := { st2 with
        nextId := sid + 1,
        sharps := (sid, sharp) :: st2.sharps }
      let ws4 := updateEntry st3.worlds wid (fun w => { w with client := some cid })
      let st4 := { st3 with worlds := ws4 }
      let cs5 := updateEntry st4.clients cid (fun c => { c with sharp_engine := some sid })
      let st5 := { st4 with clients := cs5 }
      let ws6 := updateEntry st5.worlds wid (fun w => { w with sharp_engine := some sid })
      let st6 := { st5 with worlds := ws6 }
      (st6, Except.ok cid)
    else (st2, Except.error OpenError.sharpFailure)
  else (st1, Except.error OpenError.clientFailure)

/-- Embedding of GameEngine.load (game.py lines 133-142): log, reload
the settings store, cache the two TTS flags, then set the engine
back-reference on every world in the map.  The returned state is the
state at the moment load returns or a settings lookup error escapes. -/
def GameEngine.load (st : EngineState) :
    EngineState × Except SettingsError Unit :=
  let st1 := { st with log := st.log ++
    [(pyINFO, "Loading the user\x27s configuration...")] }
  let st2 := { st1 with settings := st1.settings.load }
  match st2.settings.get "options.TTS.on" with
  | Except.error e => (st2, Except.error e)
  | Except.ok tOn =>
    let st3 := { st2 with TTS_on := some tOn }
    match st3.settings.get "options.TTS.outside" with
    | Except.error e => (st3, Except.error e)
    | Except.ok tOut =>
      let st4 := { st3 with TTS_outside := some tOut }
      let ws := st4.worlds.map (fun p => (p.1, { p.2 with engine := true }))
      ({ st4 with worlds := ws }, Except.ok ())

/-- Embedding of GameEngine.open_help (game.py lines 161-189).  fs is
the filesystem oracle (os.path.exists); lang is the language resolved by
settings.get_language (an external collaborator, passed as a
parameter).  Returns the path handed to os.startfile, if any, together
with the log records emitted.  The function is total by construction: a
miss yields none plus a single debug record, never an error value. -/
def GameEngine.open_help (fs : String → Bool) (lang name : String) :
    Option String × List (Nat × String) :=
  let filename := name ++ ".html"
  let path := "doc/" ++ lang ++ "/" ++ filename
  if fs path then
    (some path,
     [(pyDEBUG, "Open the help file for " ++ name ++ " (lang=" ++ lang ++ ")")])
  else
    let path2 := "doc/en/" ++ filename
    if fs path2 then
      (some path2,
       [(pyDEBUG, "Open the help file for " ++ name ++ " (lang=en)")])
    else
      (none,
       [(pyDEBUG, "The documentation for the " ++ name ++
         " help file cannot be found, either using lang=" ++ lang ++
         " or lang=en")])

/-- Concrete settings store used to exercise settings_level_precedence:
one key defined at both the world and the character level. -/
def sampleSettings : Settings :=
  { stored := fun _ _ => none,
    layers := fun l k =>
      if k = "options.sample" then
        match l with
        | Level.world => some "B"
        | Level.character => some "C"
        | _ => none
      else none,
    defaults := fun _ => none }

/-- Empty settings store used by the concrete engine states below. -/
def settings0 : Settings :=
  { stored := fun _ _ => none, layers := fun _ _ => none,
    defaults := fun _ => none }

/-- A freshly configured, unopened world. -/
def w0 : World := { client := none, sharp_engine := none, engine := false }

/-- A concrete engine state holding one unopened world named w1. -/
def engineSt0 : EngineState :=
  { loggers := [], log := [], settings := settings0,
    worlds := [("w1", w0)], default_world := none, level := Level.engine,
    TTS_on := none, TTS_outside := none, nextId := 0,
    clients := [], sharps := [] }

/-- A concrete engine state holding two unopened worlds w1 and w2. -/
def engineSt2 : EngineState :=
  { loggers := [], log := [], settings := settings0,
    worlds := [("w1", w0), ("w2", w0)], default_world := none,
    level := Level.engine, TTS_on := none, TTS_outside := none,
    nextId := 0, clients := [], sharps := [] }

/-- The settings store used for the load witnesses: persistent storage
declares the two TTS keys at the engine level. -/
def settingsTTS : Settings :=
  { stored := fun l k =>
      if l = Level.engine ∧ k = "options.TTS.on" then some "True"
      else if l = Level.engine ∧ k = "options.TTS.outside" then some "True"
      else none,
    layers := fun _ _ => none,
    defaults := fun _ => none }

/-- A concrete engine state whose store declares the TTS keys. -/
def engineStTTS : EngineState :=
  { loggers := [], log := [], settings := settingsTTS,
    worlds := [("w1", w0)], default_world := none, level := Level.engine,
    TTS_on := none, TTS_outside := none, nextId := 0,
    clients := [], sharps := [] }

/-- C2: a second create_logger call with the same resolved physical name
returns the same cached channel and leaves the registry unchanged, so
the set of sinks after the second call equals the set after the first. -/
theorem create_logger_idempotent (loggers : List (String × Logger))
    (n1 n2 : String) (f1 f2 : Option String)
    (h : physName n1 = physName n2) :
    (create_logger (create_logger loggers n1 f1).1 n2 f2).2
      = (create_logger loggers n1 f1).2 ∧
    (create_logger (create_logger loggers n1 f1).1 n2 f2).1
      = (create_logger loggers n1 f1).1 := by
  unfold create_logger
  rw [← h]
  cases hl : loggers.lookup (physName n1) with
  | some lg => simp [hl]
  | none => simp [hl, List.lookup]

/-- C2 witness at a concrete input. -/
theorem create_logger_idempotent_witness :
    physName "sharp" = physName "sharp" ∧
    (create_logger (create_logger [] "sharp" none).1 "sharp" none).2
      = (create_logger [] "sharp" none).2 :=
  ⟨rfl, (create_logger_idempotent [] "sharp" "sharp" none none rfl).1⟩

theorem physName_child_ne_root (n : String) (hn : n ≠ "") :
    physName n ≠ "cocomud" := by
  intro he
  rw [physName, if_neg hn] at he
  have hlen := congrArg String.length he
  rw [String.length_append] at hlen
  have h8 : ("cocomud." : String).length = 8 := rfl
  have h7 : ("cocomud" : String).length = 7 := rfl
  rw [h8, h7] at hlen
  omega

/-- C5: on a registry not yet holding the resolved name, acquiring the
root channel yields physical name cocomud, own severity debug, and
exactly a console sink at info followed by a UTF-8 file sink at debug on
logs/main.log; acquiring a non-empty name yields physical name
cocomud.<name>, own severity debug, and only the UTF-8 file sink at
debug, on logs/<name>.log unless a filename override is given. -/
theorem create_logger_sinks (loggers : List (String × Logger)) :
    (loggers.lookup "cocomud" = none →
      (create_logger loggers "" none).2 =
        { name := "cocomud", level := pyDEBUG,
          handlers := [Handler.stream pyINFO,
            Handler.file "logs/main.log" "utf-8" pyDEBUG customFmt] }) ∧
    (∀ (n : String) (f : Option String), n ≠ "" →
      loggers.lookup ("cocomud." ++ n) = none →
      (create_logger loggers n f).2 =
        { name := "cocomud." ++ n, level := pyDEBUG,
          handlers := [Handler.file (f.getD ("logs/" ++ n ++ ".log"))
            "utf-8" pyDEBUG customFmt] }) := by
  constructor
  · intro h
    simp [create_logger, physName, physFile, h]
  · intro n f hn h
    have hne := physName_child_ne_root n hn
    rw [physName, if_neg hn] at hne
    simp [create_logger, physName, physFile, hn, h, hne]

/-- C5 witness at concrete inputs. -/
theorem create_logger_sinks_witness :
    (create_logger [] "" none).2 =
      { name := "cocomud", level := pyDEBUG,
        handlers := [Handler.stream pyINFO,
          Handler.file "logs/main.log" "utf-8" pyDEBUG customFmt] } ∧
    (create_logger [] "sharp" none).2 =
      { name := "cocomud.sharp", level := pyDEBUG,
        handlers := [Handler.file "logs/sharp.log" "utf-8" pyDEBUG customFmt] } :=
  ⟨(create_logger_sinks []).1 rfl,
   (create_logger_sinks []).2 "sharp" none (by decide) rfl⟩

/-- C9: when acquiring the root channel the filename argument is
ignored: the resolved file is always logs/main.log, so the call with an
override equals the call without one. -/
theorem create_logger_root_ignores_filename
    (loggers : List (String × Logger)) (f : String) :
    create_logger loggers "" (some f) = create_logger loggers "" none := by
  simp [create_logger, physFile]

/-- C6: the Level tags carry increasing integer ranks engine=1 < world=2
< character=3 < category=4, and settings resolution follows that
precedence: a key defined at a level with no definition at any more
specific level resolves to that level; with no defining level the
declared default is returned; and without a declared default the lookup
fails with the KeyError-class error. -/
theorem settings_level_precedence :
    (Level.engine.value = 1 ∧ Level.world.value = 2 ∧
     Level.character.value = 3 ∧ Level.category.value = 4 ∧
     Level.engine.value < Level.world.value ∧
     Level.world.value < Level.character.value ∧
     Level.character.value < Level.category.value) ∧
    (∀ (s : Settings) (key v : String) (l : Level),
      s.layers l key = some v →
      (∀ m : Level, l.value < m.value → s.layers m key = none) →
      s.get key = Except.ok v) ∧
    (∀ (s : Settings) (key d : String),
      (∀ l : Level, s.layers l key = none) →
      s.defaults key = some d → s.get key = Except.ok d) ∧
    (∀ (s : Settings) (key : String),
      (∀ l : Level, s.layers l key = none) →
      s.defaults key = none →
      s.get key = Except.error SettingsError.keyError) := by
  refine ⟨by decide, ?_, ?_, ?_⟩
  · intro s key v l hl hmore
    cases l with
    | engine =>
      simp [Settings.get, hmore Level.category (by decide),
        hmore Level.character (by decide), hmore Level.world (by decide), hl]
    | world =>
      simp [Settings.get, hmore Level.category (by decide),
        hmore Level.character (by decide), hl]
    | character =>
      simp [Settings.get, hmore Level.category (by decide), hl]
    | category =>
      simp [Settings.get, hl]
  · intro s key d hnone hd
    simp [Settings.get, hnone Level.category, hnone Level.character,
      hnone Level.world, hnone Level.engine, hd]
  · intro s key hnone hd
    simp [Settings.get, hnone Level.category, hnone Level.character,
      hnone Level.world, hnone Level.engine, hd]

/-- C6 witness: with the key defined at world and character level,
resolution returns the character-level value. -/
theorem settings_level_precedence_witness :
    sampleSettings.get "options.sample" = Except.ok "C" :=
  settings_level_precedence.2.1 sampleSettings "options.sample" "C"
    Level.character rfl
    (by
      intro m h
      cases m with
      | engine => rfl
      | world => exact absurd h (by decide)
      | character => exact absurd h (by decide)
      | category => rfl)

theorem lookup_updateEntry_self {κ α : Type} [BEq κ] [LawfulBEq κ]
    (xs : List (κ × α)) (k : κ) (f : α → α) (v : α)
    (hv : xs.lookup k = some v) :
    (updateEntry xs k f).lookup k = some (f v) := by
  induction xs with
  | nil => simp [List.lookup] at hv
  | cons p ps ih =>
    obtain ⟨a, b⟩ := p
    cases hba : (k == a) with
    | true =>
      have hk : k = a := eq_of_beq hba
      subst hk
      simp [List.lookup] at hv
      subst hv
      simp [updateEntry, List.lookup]
    | false =>
      have hne : ¬(a = k) := fun he => by simp [he] at hba
      have hab : (a == k) = false := beq_eq_false_iff_ne.mpr hne
      simp [List.lookup, hba] at hv
      simpa [updateEntry, List.lookup, hab, hba] using ih hv

theorem lookup_updateEntry_other {κ α : Type} [BEq κ] [LawfulBEq κ]
    (xs : List (κ × α)) (k j : κ) (f : α → α) (h : (j == k) = false) :
    (updateEntry xs k f).lookup j = xs.lookup j := by
  induction xs with
  | nil => simp [updateEntry]
  | cons p ps ih =>
    obtain ⟨a, b⟩ := p
    simp only [updateEntry] at ih ⊢
    cases hak : (a == k) with
    | true =>
      have hja : (j == a) = false := by
        have hk : a = k := eq_of_beq hak
        rw [hk]
        exact h
      simp [List.lookup, hak, hja, ih]
    | false =>
      cases hja : (j == a) with
      | true => simp [List.lookup, hak, hja]
      | false => simp [List.lookup, hak, hja, ih]

theorem updateEntry_keys {κ α : Type} [BEq κ] (xs : List (κ × α)) (k : κ)
    (f : α → α) : (updateEntry xs k f).map Prod.fst = xs.map Prod.fst := by
  induction xs with
  | nil => rfl
  | cons p ps ih =>
    obtain ⟨a, b⟩ := p
    cases hak : (a == k) with
    | true => simp [updateEntry, hak] at ih ⊢; exact ih
    | false => simp [updateEntry, hak] at ih ⊢; exact ih

/-- C1: if the GUIClient constructor or the SharpScript constructor
raises during open, the error propagates to the caller of open, and a
world whose client and sharp_engine fields were unset before the call
still has both unset afterwards: no partial cross-wiring is
observable. -/
theorem open_failure_atomic (st : EngineState) (host : String) (port : Nat)
    (wid : String) (clientOk sharpOk : Bool) (w : World)
    (hw : st.worlds.lookup wid = some w)
    (hc : w.client = none) (hs : w.sharp_engine = none)
    (hfail : clientOk = false ∨ sharpOk = false) :
    (∃ e, (GameEngine.openWorld st host port wid clientOk sharpOk).2
        = Except.error e) ∧
    ∃ w', (GameEngine.openWorld st host port wid clientOk
        sharpOk).1.worlds.lookup wid = some w' ∧
      w'.client = none ∧ w'.sharp_engine = none := by
  cases clientOk with
  | false =>
    exact ⟨⟨OpenError.clientFailure, by simp [GameEngine.openWorld]⟩, w,
      by simpa [GameEngine.openWorld] using hw, hc, hs⟩
  | true =>
    cases sharpOk with
    | false =>
      exact ⟨⟨OpenError.sharpFailure, by simp [GameEngine.openWorld]⟩, w,
        by simpa [GameEngine.openWorld] using hw, hc, hs⟩
    | true =>
      rcases hfail with h | h <;> exact absurd h (by decide)

/-- C1 witness: a SharpScript construction failure inside
open("host", 4000, w1) leaves w1 unwired and surfaces the error. -/
theorem open_failure_atomic_witness :
    (∃ e, (GameEngine.openWorld engineSt0 "host" 4000 "w1" true false).2
        = Except.error e) ∧
    ∃ w', (GameEngine.openWorld engineSt0 "host" 4000 "w1" true
        false).1.worlds.lookup "w1" = some w' ∧
      w'.client = none ∧ w'.sharp_engine = none :=
  open_failure_atomic engineSt0 "host" 4000 "w1" true false w0 rfl rfl rfl
    (Or.inr rfl)

/-- C3: a successful open returns the id of the newly constructed
GUIClient; afterwards the world holds that client, its sharp_engine is
the newly constructed SharpScript, and the client object and the world
refer to the same sharp engine object (identical ids), so both fields
are set and mutually cross-referencing. -/
theorem open_success_wiring (st : EngineState) (host : String) (port : Nat)
    (wid : String) (w : World) (hw : st.worlds.lookup wid = some w) :
    (GameEngine.openWorld st host port wid true true).2
      = Except.ok st.nextId ∧
    ∃ w', (GameEngine.openWorld st host port wid true
        true).1.worlds.lookup wid = some w' ∧
      w'.client = some st.nextId ∧
      w'.sharp_engine = some (st.nextId + 1) ∧
      (∃ c, (GameEngine.openWorld st host port wid true
          true).1.clients.lookup st.nextId = some c ∧
        c.host = host ∧ c.port = port ∧ c.worldId = wid ∧
        c.sharp_engine = w'.sharp_engine) ∧
      ∃ sh, (GameEngine.openWorld st host port wid true
          true).1.sharps.lookup (st.nextId + 1) = some sh ∧
        sh.clientId = st.nextId ∧ sh.worldId = wid := by
  have h1 := lookup_updateEntry_self st.worlds wid
    (fun v => { v with client := some st.nextId }) w hw
  have hws := lookup_updateEntry_self _ wid
    (fun v => { v with sharp_engine := some (st.nextId + 1) }) _ h1
  have hc0 : ((st.nextId, ({
      host := host,
      port := port,
      worldId := wid,
      sharp_engine := none } : GUIClient)) :: st.clients).lookup st.nextId
      = some {
          host := host,
          port := port,
          worldId := wid,
          sharp_engine := none } := by
    simp [List.lookup]
  have hcs := lookup_updateEntry_self _ st.nextId
    (fun c => { c with sharp_engine := some (st.nextId + 1) }) _ hc0
  refine ⟨by simp [GameEngine.openWorld],
    { w with
      client := some st.nextId,
      sharp_engine := some (st.nextId + 1) }, ?_, rfl, rfl,
    ⟨{
       host := host,
       port := port,
       worldId := wid,
       sharp_engine := some (st.nextId + 1) }, ?_, rfl, rfl, rfl, rfl⟩,
    { clientId := st.nextId, worldId := wid }, ?_, rfl, rfl⟩
  · simp only [GameEngine.openWorld]
    simpa using hws
  · simp only [GameEngine.openWorld]
    simpa using hcs
  · simp only [GameEngine.openWorld]
    simp [List.lookup]

/-- C3 witness: opening the single configured world of a fresh engine
state wires it fully. -/
theorem open_success_wiring_witness :
    (GameEngine.openWorld engineSt0 "mud.example.org" 4000 "w1" true
      true).2 = Except.ok engineSt0.nextId ∧
    ∃ w', (GameEngine.openWorld engineSt0 "mud.example.org" 4000 "w1" true
        true).1.worlds.lookup "w1" = some w' ∧
      w'.client = some engineSt0.nextId ∧
      w'.sharp_engine = some (engineSt0.nextId + 1) ∧
      (∃ c, (GameEngine.openWorld engineSt0 "mud.example.org" 4000 "w1" true
          true).1.clients.lookup engineSt0.nextId = some c ∧
        c.host = "mud.example.org" ∧ c.port = 4000 ∧ c.worldId = "w1" ∧
        c.sharp_engine = w'.sharp_engine) ∧
      ∃ sh, (GameEngine.openWorld engineSt0 "mud.example.org" 4000 "w1" true
          true).1.sharps.lookup (engineSt0.nextId + 1) = some sh ∧
        sh.clientId = engineSt0.nextId ∧ sh.worldId = "w1" :=
  open_success_wiring engineSt0 "mud.example.org" 4000 "w1" w0 rfl

/-- C8: opening a distinct world w2 leaves the wiring of w1 untouched,
and open leaves the world-map keys, the settings store and the current
level unchanged, whatever the outcome of the two constructors. -/
theorem open_frame (st : EngineState) (host : String) (port : Nat)
    (wid1 wid2 : String) (clientOk sharpOk : Bool) (hne : wid1 ≠ wid2) :
    (GameEngine.openWorld st host port wid2 clientOk
      sharpOk).1.worlds.lookup wid1 = st.worlds.lookup wid1 ∧
    (GameEngine.openWorld st host port wid2 clientOk
      sharpOk).1.worlds.map Prod.fst = st.worlds.map Prod.fst ∧
    (GameEngine.openWorld st host port wid2 clientOk
      sharpOk).1.settings = st.settings ∧
    (GameEngine.openWorld st host port wid2 clientOk
      sharpOk).1.level = st.level := by
  have hb : (wid1 == wid2) = false := beq_eq_false_iff_ne.mpr hne
  cases clientOk with
  | false => simp [GameEngine.openWorld]
  | true =>
    cases sharpOk with
    | false => simp [GameEngine.openWorld]
    | true =>
      refine ⟨?_, ?_, ?_, ?_⟩
      · simp only [GameEngine.openWorld]
        simp [lookup_updateEntry_other _ _ _ _ hb]
      · simp only [GameEngine.openWorld]
        simp [updateEntry_keys]
      · simp [GameEngine.openWorld]
      · simp [GameEngine.openWorld]

/-- C8 witness: a successful open of w2 leaves w1 and the engine state
components unchanged. -/
theorem open_frame_witness :
    (GameEngine.openWorld engineSt2 "mud.example.org" 4000 "w2" true
      true).1.worlds.lookup "w1" = engineSt2.worlds.lookup "w1" ∧
    (GameEngine.openWorld engineSt2 "mud.example.org" 4000 "w2" true
      true).1.worlds.map Prod.fst = engineSt2.worlds.map Prod.fst ∧
    (GameEngine.openWorld engineSt2 "mud.example.org" 4000 "w2" true
      true).1.settings = engineSt2.settings ∧
    (GameEngine.openWorld engineSt2 "mud.example.org" 4000 "w2" true
      true).1.level = engineSt2.level :=
  open_frame engineSt2 "mud.example.org" 4000 "w1" "w2" true true
    (by decide)

/-- C7: when both store reads succeed, load triggers the settings store
reload, caches exactly the two TTS flags read from options.TTS.on and
options.TTS.outside, and sets the engine back-reference on every world
in the map, so every known world afterwards has the back-reference
set. -/
theorem load_success (st : EngineState) (a b : String)
    (ha : (st.settings.load).get "options.TTS.on" = Except.ok a)
    (hb : (st.settings.load).get "options.TTS.outside" = Except.ok b) :
    (GameEngine.load st).2 = Except.ok () ∧
    (GameEngine.load st).1.settings = st.settings.load ∧
    (GameEngine.load st).1.TTS_on = some a ∧
    (GameEngine.load st).1.TTS_outside = some b ∧
    (GameEngine.load st).1.worlds
      = st.worlds.map (fun p => (p.1, { p.2 with engine := true })) ∧
    ∀ p ∈ (GameEngine.load st).1.worlds, p.2.engine = true := by
  refine ⟨?_, ?_, ?_, ?_, ?_, ?_⟩
  · simp [GameEngine.load, ha, hb]
  · simp [GameEngine.load, ha, hb]
  · simp [GameEngine.load, ha, hb]
  · simp [GameEngine.load, ha, hb]
  · simp [GameEngine.load, ha, hb]
  · simp [GameEngine.load, ha, hb]
    intro k1 w1 k2 w2 hmem hk hbe
    rw [← hbe]

/-- C7 witness: a successful load on a concrete engine state. -/
theorem load_success_witness :
    (GameEngine.load engineStTTS).2 = Except.ok () ∧
    (GameEngine.load engineStTTS).1.settings = engineStTTS.settings.load ∧
    (GameEngine.load engineStTTS).1.TTS_on = some "True" ∧
    (GameEngine.load engineStTTS).1.TTS_outside = some "True" ∧
    (GameEngine.load engineStTTS).1.worlds
      = engineStTTS.worlds.map (fun p => (p.1, { p.2 with engine := true })) ∧
    ∀ p ∈ (GameEngine.load engineStTTS).1.worlds, p.2.engine = true :=
  load_success engineStTTS "True" "True" rfl rfl

/-- C10: if the store lookup of either TTS key fails during load, the
error propagates out of load and the world map is unchanged: no world
has had its engine back-reference assigned by that call, because the
per-world loop runs only after both cached reads succeed. -/
theorem load_failure_frame (st : EngineState)
    (h : (st.settings.load).get "options.TTS.on"
          = Except.error SettingsError.keyError
       ∨ (st.settings.load).get "options.TTS.outside"
          = Except.error SettingsError.keyError) :
    (∃ e, (GameEngine.load st).2 = Except.error e) ∧
    (GameEngine.load st).1.worlds = st.worlds := by
  cases hon : (st.settings.load).get "options.TTS.on" with
  | error e =>
    exact ⟨⟨e, by simp [GameEngine.load, hon]⟩,
      by simp [GameEngine.load, hon]⟩
  | ok a =>
    cases hout : (st.settings.load).get "options.TTS.outside" with
    | error e =>
      exact ⟨⟨e, by simp [GameEngine.load, hon, hout]⟩,
        by simp [GameEngine.load, hon, hout]⟩
    | ok b =>
      rcases h with h | h
      · rw [hon] at h
        exact absurd h (by simp)
      · rw [hout] at h
        exact absurd h (by simp)

/-- C10 witness: on a store with no declared keys, load fails and the
single world keeps an unset engine back-reference. -/
theorem load_failure_frame_witness :
    (∃ e, (GameEngine.load engineSt0).2 = Except.error e) ∧
    (GameEngine.load engineSt0).1.worlds = engineSt0.worlds :=
  load_failure_frame engineSt0 (Or.inl rfl)

/-- C4: help resolution tries doc/<locale>/<name>.html first and opens
it if it exists; otherwise it tries doc/en/<name>.html and opens that if
it exists; if neither exists the outcome is no opened path together with
exactly one debug-severity record naming both attempted locales, and the
embedded function is total, so no exception reaches the caller. -/
theorem open_help_fallback (fs : String → Bool) (lang name : String) :
    (fs ("doc/" ++ lang ++ "/" ++ (name ++ ".html")) = true →
      (GameEngine.open_help fs lang name).1
        = some ("doc/" ++ lang ++ "/" ++ (name ++ ".html"))) ∧
    (fs ("doc/" ++ lang ++ "/" ++ (name ++ ".html")) = false →
      fs ("doc/en/" ++ (name ++ ".html")) = true →
      (GameEngine.open_help fs lang name).1
        = some ("doc/en/" ++ (name ++ ".html"))) ∧
    (fs ("doc/" ++ lang ++ "/" ++ (name ++ ".html")) = false →
      fs ("doc/en/" ++ (name ++ ".html")) = false →
      GameEngine.open_help fs lang name
        = (none, [(pyDEBUG, "The documentation for the " ++ name ++
            " help file cannot be found, either using lang=" ++ lang ++
            " or lang=en")])) := by
  refine ⟨?_, ?_, ?_⟩
  · intro h1
    simp [GameEngine.open_help, h1]
  · intro h1 h2
    simp [GameEngine.open_help, h1, h2]
  · intro h1 h2
    simp [GameEngine.open_help, h1, h2]

/-- C4 witness: the spec scenario with doc/fr/macros.html absent and
doc/en/macros.html present resolves to the English path. -/
theorem open_help_fallback_witness :
    (GameEngine.open_help (fun p => p == "doc/en/macros.html") "fr"
      "macros").1 = some "doc/en/macros.html" :=
  (open_help_fallback (fun p => p == "doc/en/macros.html") "fr"
    "macros").2.1 (by decide) (by decide)
